import Mathlib

/-
Verification development for the `sniffer` terminal packet-capture tool.

The Rust sources under `src/` are shallowly embedded below:
- Rust `String` values are modelled as their UTF-8 byte sequences
  (`RustString := List Nat`), so that the byte-index cursor arithmetic of the
  filter editor is represented faithfully, including the panics of
  `String::insert` / `String::remove` at non-character boundaries
  (modelled as `Option.none`).
- The external pcap library (device enumeration, capture open, BPF filter
  compilation) is represented by a `CaptureEnv` record of its outcomes, and the
  external etherparse library by a parameter `ext` giving the parsed fields of
  a frame.
- The capture worker thread, the unbounded FIFO ingestion channel and the
  interactive loop are modelled as a sequential state machine over `SysEvent`s:
  a worker send, an input event (key / mouse / tick), or an action-bus
  delivery. `Option.none` at the machine level models process abort
  (a propagated `Err` out of `main`, or a panic).
-/

namespace Sniffer

/-- Rust `String`, as its UTF-8 byte sequence. -/
abbrev RustString := List Nat

/-- UTF-8 encoding of a single character (standard 1-4 byte encoding). -/
def utf8Encode (c : Char) : List Nat :=
  let n := c.toNat
  if n < 0x80 then [n]
  else if n < 0x800 then [0xC0 + n / 64, 0x80 + n % 64]
  else if n < 0x10000 then [0xE0 + n / 4096, 0x80 + n / 64 % 64, 0x80 + n % 64]
  else [0xF0 + n / 262144, 0x80 + n / 4096 % 64, 0x80 + n / 64 % 64, 0x80 + n % 64]

/-- A Lean string literal, as the corresponding Rust string (UTF-8 bytes). -/
def str (s : String) : RustString :=
  (s.data.map utf8Encode).flatten

instance {α β : Type} [DecidableEq α] [DecidableEq β] : DecidableEq (Except α β) := fun x y =>
  match x, y with
  | .error a, .error b => if h : a = b then isTrue (by rw [h]) else isFalse (by simp [h])
  | .ok a, .ok b => if h : a = b then isTrue (by rw [h]) else isFalse (by simp [h])
  | .error _, .ok _ => isFalse (by simp)
  | .ok _, .error _ => isFalse (by simp)

/-- Decimal rendering of a number, as in Rust `format!` of a `usize`. -/
def natStr (n : Nat) : RustString :=
  str (toString n)

/-- Embeds `PacketInfo` (src/data/packet.rs). `IpAddr` values and MAC-address
strings are both external presentation data; the `Result<IpAddr, String>`
address fields are modelled as `Except` with the rendered address text. -/
structure PacketInfo where
  id : Nat
  timestamp : RustString
  src_addr : Option (Except RustString RustString)
  src_port : Option Nat
  dst_addr : Option (Except RustString RustString)
  dst_port : Option Nat
  protocol : RustString
  length : Nat
  data : List Nat
  deriving DecidableEq

/-- The fields that the external etherparse library extracts from a raw frame
(src/data/packet.rs, body of the `match SlicedPacket::from_ethernet`).
The library itself is out of scope; `parse_packet` takes it as a parameter. -/
structure EtherFields where
  src_addr : Option (Except RustString RustString)
  src_port : Option Nat
  dst_addr : Option (Except RustString RustString)
  dst_port : Option Nat
  protocol : RustString
  deriving DecidableEq

/-- Embeds `parse_packet` (src/data/packet.rs): the identifier, timestamp and
raw data are passed through unchanged, `length` is the byte length of the
frame, and the remaining fields come from the external parsing library
(parameter `ext`). -/
def parse_packet (ext : List Nat → EtherFields) (id : Nat) (timestamp : RustString)
    (data : List Nat) : PacketInfo :=
  let f := ext data
  { id := id, timestamp := timestamp, src_addr := f.src_addr, src_port := f.src_port,
    dst_addr := f.dst_addr, dst_port := f.dst_port, protocol := f.protocol,
    length := data.length, data := data }

/-- One raw frame received by the capture worker, together with the elapsed-time
text computed at its arrival (src/pages/sniffer.rs lines 128-137). -/
structure Frame where
  time : RustString
  data : List Nat
  deriving DecidableEq

/-- The worker loop body (src/pages/sniffer.rs lines 125-146) applied to the
frames it reads before observing the stop flag, starting from counter
`packet_id`: each frame increments the counter and is parsed with the new
counter value, in arrival order. -/
def workerProduceFrom (ext : List Nat → EtherFields) (packet_id : Nat) :
    List Frame → List PacketInfo
  | [] => []
  | f :: fs =>
    parse_packet ext (packet_id + 1) f.time f.data :: workerProduceFrom ext (packet_id + 1) fs

/-- The records the capture worker sends on the ingestion channel for a given
sequence of received frames (`packet_id` starts at 0, src/pages/sniffer.rs
line 126). -/
def workerProduce (ext : List Nat → EtherFields) (frames : List Frame) : List PacketInfo :=
  workerProduceFrom ext 0 frames

/-- Embeds the `Action` enum (src/action.rs); filter text travels as the Rust
string it is (UTF-8 bytes). -/
inductive Action where
  | Filter (text : RustString)
  | Save (text : RustString)
  | Clear
  | Tick
  | Quit
  | NavigateToHome
  | NavigateToDevice
  | NavigateToSniffer
  | DeviceSelected (name : RustString)
  | ApplyFilter (text : RustString)
  | Handled
  | PacketSelected (index : Nat)
  deriving DecidableEq

/-- The crossterm key codes the program inspects. `endKey` stands for
`KeyCode::End`; `other` covers every key code none of the handlers match. -/
inductive KeyCode where
  | char (c : Char)
  | enter
  | backspace
  | delete
  | left
  | right
  | up
  | down
  | home
  | endKey
  | pageUp
  | pageDown
  | tab
  | esc
  | other
  deriving DecidableEq

/-- The crossterm mouse events the sniffer page inspects
(src/pages/sniffer.rs lines 453-475): a left-button press at a position,
wheel scrolling, or anything else. -/
inductive MouseEv where
  | down (column row : Nat)
  | scrollUp
  | scrollDown
  | other
  deriving DecidableEq

/-- Outcomes of the external pcap library during one `start_capture` call:
whether `Device::list()` succeeds and what names it returns, whether
`open()` succeeds (and its error text otherwise), and whether
`Capture::filter` compiles the filter (and its error text otherwise). -/
structure CaptureEnv where
  listOk : Bool
  devices : List RustString
  openOk : Bool
  openErr : RustString
  filterOk : Bool
  filterErr : RustString
  deriving DecidableEq

/-- Embeds `tui::Event` (src/tui.rs). A key event carries the `CaptureEnv`
describing how the capture library would respond if this key triggers
`start_capture`. -/
inductive Event where
  | key (env : CaptureEnv) (k : KeyCode)
  | mouse (m : MouseEv)
  | tick
  deriving DecidableEq

/-- Embeds `FilterMode` (src/pages/filter.rs). -/
inductive FilterMode where
  | CustomInput
  | PresetSelection
  deriving DecidableEq

/-- Embeds `FilterDialog` (src/pages/filter.rs); `filter_text` is the UTF-8
byte buffer of the Rust `String`, `cursor_position` its byte-index cursor. -/
structure FilterDialog where
  is_open : Bool
  filter_text : RustString
  cursor_position : Nat
  selected_preset : Nat
  mode : FilterMode
  deriving DecidableEq

/-- `FilterDialog::new` / `Default` (src/pages/filter.rs lines 33-49). -/
def FilterDialog.new : FilterDialog :=
  { is_open := false, filter_text := [], cursor_position := 0,
    selected_preset := 0, mode := FilterMode.CustomInput }

/-- `FilterDialog::open` (src/pages/filter.rs lines 51-57). -/
def FilterDialog.opener (d : FilterDialog) : FilterDialog :=
  { d with is_open := true, filter_text := [], cursor_position := 0,
           selected_preset := 0, mode := FilterMode.CustomInput }

/-- `FilterDialog::close` (src/pages/filter.rs lines 59-61). -/
def FilterDialog.close (d : FilterDialog) : FilterDialog :=
  { d with is_open := false }

/-- Embeds `get_filter_presets` (src/pages/filter.rs lines 63-81): the fixed
ordered catalog of (display name, filter text) pairs. -/
def get_filter_presets : List (String × String) :=
  [("TCP Traffic", "tcp"),
   ("UDP Traffic", "udp"),
   ("HTTP Traffic", "tcp port 80 or tcp port 8080"),
   ("HTTPS Traffic", "tcp port 443"),
   ("DNS Traffic", "udp port 53 or tcp port 53"),
   ("SSH Traffic", "tcp port 22"),
   ("FTP Traffic", "tcp port 21 or tcp port 20"),
   ("ICMP Traffic", "icmp"),
   ("ARP Traffic", "arp"),
   ("IPv6 Traffic", "ip6"),
   ("Broadcast", "broadcast"),
   ("Multicast", "multicast"),
   ("Large Packets", "greater 1000"),
   ("Small Packets", "less 100"),
   ("Clear Filter", "")]

/-- Rust `str::is_char_boundary` on a UTF-8 byte buffer: index 0, the length,
or any index whose byte is not a continuation byte (`0x80..0xBF`). -/
def is_char_boundary (text : RustString) (i : Nat) : Bool :=
  if i = 0 then true
  else
    match text[i]? with
    | some b => decide (b < 0x80) || decide (0xC0 ≤ b)
    | none => decide (i = text.length)

/-- Rust `String::insert(idx, c)`: splices the UTF-8 bytes of `c` at byte
index `idx`; panics (`none`) when `idx` is not a character boundary
(which also covers `idx > len`). -/
def string_insert (text : RustString) (idx : Nat) (c : Char) : Option RustString :=
  if is_char_boundary text idx then
    some (text.take idx ++ utf8Encode c ++ text.drop idx)
  else none

/-- Byte length of the UTF-8 character whose leading byte is `b`. -/
def utf8CharLen (b : Nat) : Nat :=
  if b < 0x80 then 1 else if b < 0xE0 then 2 else if b < 0xF0 then 3 else 4

/-- Rust `String::remove(idx)`: removes the character starting at byte index
`idx`; panics (`none`) when `idx` is past the end or not a character
boundary. -/
def string_remove (text : RustString) (idx : Nat) : Option RustString :=
  if idx < text.length ∧ is_char_boundary text idx then
    match text[idx]? with
    | some b => some (text.take idx ++ text.drop (idx + utf8CharLen b))
    | none => none
  else none

/-- Embeds `handle_custom_input` (src/pages/filter.rs lines 250-286); the
result pairs the new dialog state with the returned action, and `none`
models a panic of `String::insert` / `String::remove`. -/
def handle_custom_input (key : KeyCode) (d : FilterDialog) :
    Option (FilterDialog × Option Action) :=
  match key with
  | KeyCode.char c =>
    match string_insert d.filter_text d.cursor_position c with
    | some t =>
      some ({ d with filter_text := t, cursor_position := d.cursor_position + 1 },
            some Action.Handled)
    | none => none
  | KeyCode.backspace =>
    if d.cursor_position > 0 ∧ d.filter_text ≠ [] then
      match string_remove d.filter_text (d.cursor_position - 1) with
      | some t =>
        some ({ d with cursor_position := d.cursor_position - 1, filter_text := t },
              some Action.Handled)
      | none => none
    else some (d, some Action.Handled)
  | KeyCode.delete =>
    if d.cursor_position < d.filter_text.length then
      match string_remove d.filter_text d.cursor_position with
      | some t => some ({ d with filter_text := t }, some Action.Handled)
      | none => none
    else some (d, some Action.Handled)
  | KeyCode.left =>
    some (if d.cursor_position > 0 then { d with cursor_position := d.cursor_position - 1 }
          else d, some Action.Handled)
  | KeyCode.right =>
    some (if d.cursor_position < d.filter_text.length then
            { d with cursor_position := d.cursor_position + 1 }
          else d, some Action.Handled)
  | KeyCode.home => some ({ d with cursor_position := 0 }, some Action.Handled)
  | KeyCode.endKey =>
    some ({ d with cursor_position := d.filter_text.length }, some Action.Handled)
  | _ => some (d, some Action.Handled)

/-- Embeds `handle_preset_sel` (src/pages/filter.rs lines 288-311). -/
def handle_preset_sel (key : KeyCode) (d : FilterDialog) : FilterDialog × Option Action :=
  match key with
  | KeyCode.up =>
    (if d.selected_preset > 0 then { d with selected_preset := d.selected_preset - 1 }
     else d, some Action.Handled)
  | KeyCode.down =>
    (if d.selected_preset < get_filter_presets.length - 1 then
       { d with selected_preset := d.selected_preset + 1 }
     else d, some Action.Handled)
  | KeyCode.home => ({ d with selected_preset := 0 }, some Action.Handled)
  | KeyCode.endKey =>
    ({ d with selected_preset := get_filter_presets.length - 1 }, some Action.Handled)
  | _ => (d, some Action.Handled)

/-- Embeds `FilterDialog::handle_key_events` (src/pages/filter.rs lines
207-242). The middle component lists the actions `apply_filter` sends on the
action channel; the last is the handler's return value; `none` models a
panic inside the custom editor. -/
def FilterDialog.handle_key_events (key : KeyCode) (d : FilterDialog) :
    Option (FilterDialog × List Action × Option Action) :=
  match key with
  | KeyCode.esc => some (d.close, [], some Action.Handled)
  | KeyCode.tab =>
    some ({ d with mode := match d.mode with
                           | FilterMode.CustomInput => FilterMode.PresetSelection
                           | FilterMode.PresetSelection => FilterMode.CustomInput },
          [], some Action.Handled)
  | KeyCode.enter =>
    match d.mode with
    | FilterMode.CustomInput =>
      some (d.close, [Action.ApplyFilter d.filter_text], some Action.Handled)
    | FilterMode.PresetSelection =>
      match get_filter_presets[d.selected_preset]? with
      | some p => some (d.close, [Action.ApplyFilter (str p.2)], some Action.Handled)
      | none => some (d, [], some Action.Handled)
  | _ =>
    match d.mode with
    | FilterMode.CustomInput =>
      (handle_custom_input key d).map (fun r => (r.1, [], r.2))
    | FilterMode.PresetSelection =>
      let r := handle_preset_sel key d
      some (r.1, [], r.2)

/-- Embeds `FilterDialog::handle_events` (src/pages/filter.rs lines 199-205):
only key events are handled, everything else returns `None`. -/
def FilterDialog.handle_events (ev : Event) (d : FilterDialog) :
    Option (FilterDialog × List Action × Option Action) :=
  match ev with
  | Event.key _ k => FilterDialog.handle_key_events k d
  | _ => some (d, [], none)

/-- Embeds `SnifferPage` (src/pages/sniffer.rs lines 26-42).
`packet_rx : Option (List PacketInfo)` is the receiving end of the ingestion
channel with its queued, not-yet-drained records (`none` = dropped receiver);
`capture_thread_handle : Bool` says whether a worker join handle is held.
Two ghost fields track the concurrency claims: `live_workers` counts worker
threads spawned and not yet joined, and `worker_filter` records the filter
installed on the live capture handle (`none` = capturing unfiltered). -/
structure SnifferPage where
  device_name : Option RustString
  packets : List PacketInfo
  is_capturing : Bool
  status_message : RustString
  packet_count : Nat
  scroll_position : Nat
  following : Bool
  filter_dialog : FilterDialog
  current_filter : Option RustString
  packet_rx : Option (List PacketInfo)
  capture_thread_handle : Bool
  selected_packet : Option Nat
  live_workers : Nat
  worker_filter : Option RustString
  deriving DecidableEq

/-- `SnifferPage::new` / `Default` (src/pages/sniffer.rs lines 44-71). -/
def SnifferPage.new : SnifferPage :=
  { device_name := none, packets := [], is_capturing := false,
    status_message := str "No device selected. Press 'D' to select a device.",
    packet_count := 0, scroll_position := 0, following := false,
    filter_dialog := FilterDialog.new, current_filter := none, packet_rx := none,
    capture_thread_handle := false, selected_packet := none,
    live_workers := 0, worker_filter := none }

/-- Embeds `set_device` (src/pages/sniffer.rs lines 73-78). -/
def SnifferPage.set_device (name : RustString) (s : SnifferPage) : SnifferPage :=
  { s with device_name := some name,
           status_message := str "Device set to: " ++ name
             ++ str ". Press 'S' to start capturing." }

/-- The status text `start_capture` installs on its success path
(src/pages/sniffer.rs lines 96-116), according to whether a non-empty filter
is set and whether the capture library accepts it. -/
def start_status (env : CaptureEnv) (device_name : RustString)
    (cf : Option RustString) : RustString :=
  match cf with
  | some filter =>
    if filter.isEmpty = false then
      if env.filterOk then
        str "Capturing packets on " ++ device_name ++ str " with filter: " ++ filter
          ++ str ". Press 'S' to stop."
      else
        str "Filter error: " ++ env.filterErr ++ str ". Capturing without filter."
    else
      str "Capturing packets on " ++ device_name ++ str ". Press 'S' to stop."
  | none =>
    str "Capturing packets on " ++ device_name ++ str ". Press 'S' to stop."

/-- Ghost: the filter `start_capture` actually installs on the capture handle
(src/pages/sniffer.rs lines 96-108): the current filter exactly when it is
non-empty and the library compiles it; otherwise the capture is unfiltered. -/
def installed_filter (env : CaptureEnv) (cf : Option RustString) : Option RustString :=
  match cf with
  | some filter => if filter.isEmpty = false ∧ env.filterOk then some filter else none
  | none => none

/-- Embeds `start_capture` (src/pages/sniffer.rs lines 80-156). The `?`
operators on device listing, lookup and open become `Except.error` (the
transient "Starting packet capture..." status the Rust code writes first is
dropped: it is overwritten on every path on which the state survives, since
an error propagates out of `main` and aborts the process). On the success
path the worker is spawned (ghost `live_workers` incremented), a fresh
channel is installed and the packet list is reset; a failed filter
compilation only changes the status text and leaves the capture
unfiltered. -/
def start_capture (env : CaptureEnv) (s : SnifferPage) : Except RustString SnifferPage :=
  match s.device_name with
  | none => Except.ok s
  | some device_name =>
    if env.listOk = false then Except.error (str "Failed to list devices")
    else if env.devices.contains device_name = false then
      Except.error (str "Device not found")
    else if env.openOk = false then Except.error env.openErr
    else
      Except.ok { s with
        status_message := start_status env device_name s.current_filter,
        worker_filter := installed_filter env s.current_filter,
        packet_rx := some [],
        capture_thread_handle := true,
        live_workers := s.live_workers + 1,
        is_capturing := true,
        packets := [],
        packet_count := 0,
        scroll_position := 0 }

/-- Embeds `stop_capture` (src/pages/sniffer.rs lines 158-175): signal the
flag, join the worker (handle taken, ghost `live_workers` decremented), drop
the channel receiver, report. -/
def stop_capture (s : SnifferPage) : SnifferPage :=
  let s1 := { s with is_capturing := false }
  let s2 :=
    if s1.capture_thread_handle then
      { s1 with capture_thread_handle := false, live_workers := s1.live_workers - 1 }
    else s1
  let s3 := { s2 with packet_rx := none }
  match s3.device_name with
  | some device_name =>
    { s3 with status_message := str "Stopped capturing on " ++ device_name
        ++ str ". Captured " ++ natStr s3.packet_count ++ str " packets." }
  | none => s3

/-- Embeds `receive_packets` (src/pages/sniffer.rs lines 177-184): the
`try_recv` loop drains the whole queue, appending each record in receive
order and counting it. -/
def receive_packets (s : SnifferPage) : SnifferPage :=
  match s.packet_rx with
  | none => s
  | some q =>
    { s with packet_rx := some [], packets := s.packets ++ q,
             packet_count := s.packet_count + q.length }

/-- Embeds `select_packet` (src/pages/sniffer.rs lines 407-421): the visible
window starts at `scroll_position` and is 20 rows deep (`visible_end =
visible_start + 20`); the local bindings of the Rust code are inlined. -/
def select_packet (index : Nat) (s : SnifferPage) : SnifferPage :=
  if index < s.packets.length then
    if index < s.scroll_position then
      { s with selected_packet := some index, scroll_position := index }
    else if s.scroll_position + 20 ≤ index then
      { s with selected_packet := some index, scroll_position := index - 19 }
    else { s with selected_packet := some index }
  else s

/-- Embeds `get_packet` (src/pages/sniffer.rs lines 423-429). -/
def get_packet (index : Nat) (s : SnifferPage) : Option PacketInfo :=
  if index < s.packets.length then s.packets[index]? else none

/-- The fixed `Rect` used by the click handler (src/pages/sniffer.rs lines
455-461). -/
structure Rect where
  x : Nat
  y : Nat
  width : Nat
  height : Nat
  deriving DecidableEq

/-- Embeds `handle_mouse_click` (src/pages/sniffer.rs lines 383-405); the
second component lists the actions sent on the action channel; the local
bindings `clicked_row = y - area.y - 2` and `packet_index = scroll_position +
clicked_row` of the Rust code are inlined. -/
def handle_mouse_click (x y : Nat) (area : Rect) (s : SnifferPage) :
    SnifferPage × List Action :=
  if area.x < x ∧ x < area.x + area.width - 1
      ∧ area.y + 1 < y ∧ y < area.y + area.height - 1 then
    if s.scroll_position + (y - area.y - 2) < s.packets.length then
      if s.selected_packet = some (s.scroll_position + (y - area.y - 2)) then
        (s, [Action.PacketSelected (s.scroll_position + (y - area.y - 2))])
      else
        ({ s with selected_packet := some (s.scroll_position + (y - area.y - 2)) }, [])
    else (s, [])
  else (s, [])

/-- Embeds `SnifferPage::handle_key_events` (src/pages/sniffer.rs lines
482-571). `none` models the process aborting because a `start_capture`
error propagates out of `main`. The second component is the returned
action. -/
def SnifferPage.handle_key_events (env : CaptureEnv) (key : KeyCode) (s : SnifferPage) :
    Option (SnifferPage × Option Action) :=
  match key with
  | KeyCode.char c =>
    if c = 's' then
      match s.device_name with
      | some _ =>
        if s.is_capturing then some (stop_capture s, none)
        else
          match start_capture env s with
          | Except.ok s1 => some (s1, none)
          | Except.error _ => none
      | none =>
        some ({ s with
          status_message := str "No device selected. Press 'd' to select a device." },
          none)
    else if c = 'q' then
      some (if s.is_capturing then stop_capture s else s, some Action.NavigateToHome)
    else if c = 'd' then some (s, some Action.NavigateToDevice)
    else if c = 'a' then
      if s.is_capturing then
        some ({ stop_capture s with
                filter_dialog := (stop_capture s).filter_dialog.opener }, none)
      else
        some ({ s with filter_dialog := s.filter_dialog.opener }, none)
    else if c = 'c' then
      some ({ s with packets := [], packet_count := 0, scroll_position := 0,
                     selected_packet := none,
                     status_message := str "Cleared packet list." }, none)
    else if c = 'f' then some ({ s with following := !s.following }, none)
    else some (s, none)
  | KeyCode.enter =>
    match s.selected_packet with
    | some selected_index => some (s, some (Action.PacketSelected selected_index))
    | none => some (s, none)
  | KeyCode.up =>
    if s.packets.isEmpty = false then
      match s.selected_packet with
      | some current =>
        if current > 0 then some (select_packet (current - 1) s, none)
        else some (s, none)
      | none => some (select_packet 0 s, none)
    else if s.scroll_position > 0 then
      some ({ s with scroll_position := s.scroll_position - 1 }, none)
    else some (s, none)
  | KeyCode.down =>
    if s.packets.isEmpty = false then
      match s.selected_packet with
      | some current =>
        if current < s.packets.length - 1 then some (select_packet (current + 1) s, none)
        else some (s, none)
      | none => some (select_packet 0 s, none)
    else if s.scroll_position + 20 < s.packets.length then
      some ({ s with scroll_position := s.scroll_position + 1 }, none)
    else some (s, none)
  | KeyCode.home =>
    if s.packets.isEmpty = false then some (select_packet 0 s, none)
    else some ({ s with scroll_position := 0 }, none)
  | KeyCode.endKey =>
    if s.packets.isEmpty = false then some (select_packet (s.packets.length - 1) s, none)
    else if 20 < s.packets.length then
      some ({ s with scroll_position := s.packets.length - 20 }, none)
    else some ({ s with scroll_position := 0 }, none)
  | _ => some (s, none)

/-- The body of `SnifferPage::handle_events` after the filter-dialog check
(src/pages/sniffer.rs lines 445-478): ticks drain the channel while
capturing, keys go to the key handler and mouse events to click/scroll
handling. Results carry the actions sent on the action channel plus the
returned action; `none` models process abort. -/
def SnifferPage.handle_events_core (ev : Event) (s0 : SnifferPage) :
    Option (SnifferPage × List Action × Option Action) :=
  match ev with
  | Event.tick =>
    if s0.is_capturing then some (receive_packets s0, [], none)
    else some (s0, [], none)
  | Event.key env k =>
    match SnifferPage.handle_key_events env k s0 with
    | none => none
    | some (s1, r) => some (s1, [], r)
  | Event.mouse m =>
    match m with
    | MouseEv.down column row =>
      let r := handle_mouse_click column row ⟨0, 0, 100, 100⟩ s0
      some (r.1, r.2, none)
    | MouseEv.scrollUp =>
      if s0.scroll_position > 0 then
        some ({ s0 with scroll_position := s0.scroll_position - 3 }, [], none)
      else some (s0, [], none)
    | MouseEv.scrollDown =>
      if s0.scroll_position + 20 < s0.packets.length then
        some ({ s0 with scroll_position := s0.scroll_position + 3 }, [], none)
      else some (s0, [], none)
    | MouseEv.other => some (s0, [], none)

/-- Embeds `SnifferPage::handle_events` (src/pages/sniffer.rs lines 439-480):
an open filter dialog gets the event first and, when it returns an action,
the page returns early (exclusive focus); otherwise handling continues in
`handle_events_core`. -/
def SnifferPage.handle_events (ev : Event) (s : SnifferPage) :
    Option (SnifferPage × List Action × Option Action) :=
  if s.filter_dialog.is_open then
    match FilterDialog.handle_events ev s.filter_dialog with
    | none => none
    | some (d1, emitted, some a) => some ({ s with filter_dialog := d1 }, emitted, some a)
    | some (d1, emitted, none) =>
      SnifferPage.handle_events_core ev { s with filter_dialog := d1 }
  else SnifferPage.handle_events_core ev s

/-- Embeds `SnifferPage::update` (src/pages/sniffer.rs lines 573-606). -/
def SnifferPage.update (a : Action) (s : SnifferPage) : SnifferPage :=
  match a with
  | Action.DeviceSelected name => s.set_device name
  | Action.ApplyFilter filter =>
    let cf : Option RustString := if filter.isEmpty then none else some filter
    let msg :=
      match cf with
      | some filter_text => str "Filter applied: " ++ filter_text
      | none => str "Filter cleared"
    { s with current_filter := cf,
             status_message := msg ++ str ". Press 'S' to start capturing." }
  | Action.PacketSelected index =>
    match s.packets[index]? with
    | some p =>
      { s with status_message := str "Opening packet details for packet #" ++ natStr p.id }
    | none => s
  | _ => s

/-- The worker thread sends records on the ingestion channel
(src/pages/sniffer.rs line 141): they are queued at the channel's tail,
provided the receiver still exists and the worker is alive. -/
def worker_send (ps : List PacketInfo) (s : SnifferPage) : SnifferPage :=
  match s.packet_rx with
  | some q =>
    if s.capture_thread_handle then { s with packet_rx := some (q ++ ps) } else s
  | none => s

/-- The action-bus dispatch of `App::handle_action` (src/app.rs lines
113-156) restricted to the sniffer page state: every action that routes back
to the page goes through `SnifferPage::update`; navigation actions do not
touch it. -/
def dispatchActions (s : SnifferPage) (as : List Action) : SnifferPage :=
  as.foldl (fun t a => SnifferPage.update a t) s

/-- One step of the whole session: a worker channel send, an action-bus
delivery, or a terminal event handled by the page followed by the dispatch of
the actions it sent or returned. `none` models process abort. -/
inductive SysEvent where
  | ev (e : Event)
  | arrive (ps : List PacketInfo)
  | act (a : Action)
  deriving DecidableEq

def step (s : SnifferPage) (e : SysEvent) : Option SnifferPage :=
  match e with
  | SysEvent.arrive ps => some (worker_send ps s)
  | SysEvent.act a => some (SnifferPage.update a s)
  | SysEvent.ev ev =>
    match SnifferPage.handle_events ev s with
    | none => none
    | some (s1, emitted, ret) =>
      some (dispatchActions s1 (emitted ++ ret.toList))

/-- Runs the session from a state through a sequence of system events;
`none` models process abort part-way. -/
def runEvents (s : SnifferPage) : List SysEvent → Option SnifferPage
  | [] => some s
  | e :: es =>
    match step s e with
    | none => none
    | some s1 => runEvents s1 es

/-- Embeds `PacketDetailsPage` (src/pages/detail.rs lines 19-24). -/
structure PacketDetailsPage where
  packet : Option PacketInfo
  hex_scroll : Nat
  deriving DecidableEq

/-- Embeds `PacketDetailsPage::set_packet` (src/pages/detail.rs lines 31-34). -/
def PacketDetailsPage.set_packet (p : PacketInfo) (d : PacketDetailsPage) :
    PacketDetailsPage :=
  { d with packet := some p, hex_scroll := 0 }

/-- Embeds `PacketDetailsPage::handle_key_events` (src/pages/detail.rs lines
315-352). The clamp used by Down / PageDown / End is
`(data.len() / 16).saturating_sub(10)`; in `Nat` arithmetic that is
`data.length / 16 - 10`. -/
def PacketDetailsPage.handle_key_events (key : KeyCode) (d : PacketDetailsPage) :
    PacketDetailsPage × Option Action :=
  match d.packet with
  | none => (d, none)
  | some packet =>
    match key with
    | KeyCode.char 'q' => (d, some Action.NavigateToSniffer)
    | KeyCode.up =>
      (if d.hex_scroll > 0 then { d with hex_scroll := d.hex_scroll - 1 } else d, none)
    | KeyCode.down =>
      let max_scroll := packet.data.length / 16 - 10
      (if d.hex_scroll < max_scroll then { d with hex_scroll := d.hex_scroll + 1 } else d,
       none)
    | KeyCode.pageUp => ({ d with hex_scroll := d.hex_scroll - 10 }, none)
    | KeyCode.pageDown =>
      let max_scroll := packet.data.length / 16 - 10
      ({ d with hex_scroll := min (d.hex_scroll + 10) max_scroll }, none)
    | KeyCode.home => ({ d with hex_scroll := 0 }, none)
    | KeyCode.endKey =>
      let max_scroll := packet.data.length / 16 - 10
      ({ d with hex_scroll := max_scroll }, none)
    | _ => (d, none)

/-- The number of hex rows visible in the rendered hex viewer
(src/pages/detail.rs line 234): the area height minus borders and header. -/
def visible_lines (height : Nat) : Nat :=
  height - 3

/-- Modelled from the spec: the bound the specification states for
`hex_scroll`, namely `max(0, ceil(byte_length/16) - visible_lines)`
(`Nat` subtraction supplies the clamp at 0). Stated for comparison with the
clamp the code actually uses in `PacketDetailsPage.handle_key_events`. -/
def specHexScrollBound (byte_length visible : Nat) : Nat :=
  (byte_length + 15) / 16 - visible

/-- The effect on `packets` of draining the ingestion channel once per tick
(`receive_packets`), over the per-tick batches in which the records reached
the channel. -/
def drainAll (packets : List PacketInfo) (batches : List (List PacketInfo)) :
    List PacketInfo :=
  batches.foldl (fun ps b => ps ++ b) packets

/-- The custom-filter editor applied to a sequence of edit keys
(src/pages/filter.rs `handle_custom_input`); `none` models a panic
aborting the process. -/
def runCustomInput (d : FilterDialog) : List KeyCode → Option FilterDialog
  | [] => some d
  | k :: ks =>
    match handle_custom_input k d with
    | none => none
    | some r => runCustomInput r.1 ks

/-- Ghost worker invariant: the number of spawned, unjoined worker threads is
1 when a join handle is held and 0 otherwise, and a handle is only held while
`is_capturing` is set. -/
def WorkerInv (s : SnifferPage) : Prop :=
  s.live_workers = (if s.capture_thread_handle then 1 else 0) ∧
  (s.capture_thread_handle = true → s.is_capturing = true)

/-- The selection-bounds invariant of the packet list (spec, data model of
List Navigation State). -/
def SelInv (s : SnifferPage) : Prop :=
  ∀ i, s.selected_packet = some i → i < s.packets.length

/-- Whether a system event triggers a successful-start attempt: the 's' key
with the filter dialog closed, a device set and capture not running. -/
def startsCapture (e : SysEvent) (s : SnifferPage) : Bool :=
  match e with
  | SysEvent.ev (Event.key _ (KeyCode.char c)) =>
    c = 's' && !s.filter_dialog.is_open && s.device_name.isSome && !s.is_capturing
  | _ => false

/-- An external-parse stub: every frame parses to the "Unknown" protocol with
no addresses, as `parse_packet` yields on unparseable input. -/
def extUnknown : List Nat → EtherFields := fun _ =>
  { src_addr := none, src_port := none, dst_addr := none, dst_port := none,
    protocol := str "Unknown" }

/-- A capture environment in which everything succeeds and device "eth0"
exists. -/
def envOk : CaptureEnv :=
  { listOk := true, devices := [str "eth0"], openOk := true, openErr := [],
    filterOk := true, filterErr := [] }

/-- A concrete first packet record of a session. -/
def p1 : PacketInfo := parse_packet extUnknown 1 (str "0.000001") [0, 1, 2]

/-- A concrete 320-byte packet record (20 full hex rows). -/
def p320 : PacketInfo := parse_packet extUnknown 1 (str "0.000001") (List.replicate 320 0)

/-- Concrete run for C2: select device, start, the worker sends one record,
stop before any tick drains it, then two further ticks. -/
def evsC2 : List SysEvent :=
  [SysEvent.act (Action.DeviceSelected (str "eth0")),
   SysEvent.ev (Event.key envOk (KeyCode.char 's')),
   SysEvent.arrive [p1],
   SysEvent.ev (Event.key envOk (KeyCode.char 's')),
   SysEvent.ev Event.tick,
   SysEvent.ev Event.tick]

/-- Concrete run for C6: select device, start, receive and drain one record,
select it with Down, stop, then start again. -/
def evsC6 : List SysEvent :=
  [SysEvent.act (Action.DeviceSelected (str "eth0")),
   SysEvent.ev (Event.key envOk (KeyCode.char 's')),
   SysEvent.arrive [p1],
   SysEvent.ev Event.tick,
   SysEvent.ev (Event.key envOk KeyCode.down),
   SysEvent.ev (Event.key envOk (KeyCode.char 's')),
   SysEvent.ev (Event.key envOk (KeyCode.char 's'))]

/-- Concrete run for C8: select device, start, receive and drain 21 records,
open the filter dialog with 'a', then scroll the wheel down. -/
def evsC8 : List SysEvent :=
  [SysEvent.act (Action.DeviceSelected (str "eth0")),
   SysEvent.ev (Event.key envOk (KeyCode.char 's')),
   SysEvent.arrive (List.replicate 21 p1),
   SysEvent.ev Event.tick,
   SysEvent.ev (Event.key envOk (KeyCode.char 'a')),
   SysEvent.ev (Event.mouse MouseEv.scrollDown)]

/-- Concrete run for C9: select device, start, receive and drain one record
(no selection yet), then press Up. -/
def evsC9 : List SysEvent :=
  [SysEvent.act (Action.DeviceSelected (str "eth0")),
   SysEvent.ev (Event.key envOk (KeyCode.char 's')),
   SysEvent.arrive [p1],
   SysEvent.ev Event.tick,
   SysEvent.ev (Event.key envOk KeyCode.up)]

/-- A session page whose filter dialog is open in preset mode with preset `i`
selected. -/
def sPreset (i : Nat) : SnifferPage :=
  { SnifferPage.new with
    filter_dialog := { is_open := true, filter_text := [], cursor_position := 0,
                       selected_preset := i, mode := FilterMode.PresetSelection } }

/-- A session page with a device and a non-empty custom filter set. -/
def sFiltered : SnifferPage :=
  { SnifferPage.new with device_name := some (str "eth0"),
                         current_filter := some (str "tcp port 99999") }

/-- A capture environment whose filter compilation fails. -/
def envBadFilter : CaptureEnv :=
  { listOk := true, devices := [str "eth0"], openOk := true, openErr := [],
    filterOk := false, filterErr := str "syntax error" }

/-- A capturing session page with one record still queued on the ingestion
channel. -/
def sQueued : SnifferPage :=
  { SnifferPage.new with is_capturing := true, capture_thread_handle := true,
                         live_workers := 1, packet_rx := some [p1] }

/-- A session page holding one captured record with no selection. -/
def sOnePacket : SnifferPage :=
  { SnifferPage.new with packets := [p1], packet_count := 1 }

/-- `sPreset 2` after a Tab key toggled the dialog into custom-input mode. -/
def sPresetTabbed : SnifferPage :=
  { SnifferPage.new with
    filter_dialog := { is_open := true, filter_text := [], cursor_position := 0,
                       selected_preset := 2, mode := FilterMode.CustomInput } }

theorem workerProduceFrom_length (ext : List Nat → EtherFields) (n : Nat)
    (frames : List Frame) : (workerProduceFrom ext n frames).length = frames.length := by
  induction frames generalizing n with
  | nil => rfl
  | cons f fs ih => simp [workerProduceFrom, ih]

theorem workerProduceFrom_get (ext : List Nat → EtherFields) (n : Nat)
    (frames : List Frame) (i : Nat) (h : i < (workerProduceFrom ext n frames).length) :
    ((workerProduceFrom ext n frames).get ⟨i, h⟩).id = n + i + 1 := by
  induction frames generalizing n i with
  | nil => simp [workerProduceFrom] at h
  | cons f fs ih =>
    cases i with
    | zero => simp [workerProduceFrom, parse_packet]
    | succ j =>
      simp only [workerProduceFrom, List.get_cons_succ]
      rw [ih]
      omega

theorem drainAll_eq_append (packets : List PacketInfo)
    (batches : List (List PacketInfo)) :
    drainAll packets batches = packets ++ batches.flatten := by
  induction batches generalizing packets with
  | nil => simp [drainAll]
  | cons b bs ih =>
    simp only [drainAll, List.foldl_cons, List.flatten_cons]
    have h2 := ih (packets ++ b)
    simp only [drainAll] at h2
    rw [h2, List.append_assoc]

/-- C1: for every sequence of frames the capture worker receives, the records
it produces carry sequence ids 1, 2, 3, ... in frame arrival order; however
the worker's output is split into per-tick batches on the FIFO channel,
draining them (each drain being what `receive_packets` does to `packets`)
yields exactly the production sequence, so `packets[i].id = i + 1` with no
gaps and no reordering. -/
theorem capture_ids_sequential_and_ordered (ext : List Nat → EtherFields)
    (frames : List Frame) (batches : List (List PacketInfo))
    (hb : batches.flatten = workerProduce ext frames) :
    drainAll [] batches = workerProduce ext frames ∧
    (∀ i (h : i < (workerProduce ext frames).length),
      ((workerProduce ext frames).get ⟨i, h⟩).id = i + 1) ∧
    (∀ s q, s.packet_rx = some q → (receive_packets s).packets = s.packets ++ q) := by
  refine ⟨?_, ?_, ?_⟩
  · rw [drainAll_eq_append, hb]
    simp
  · intro i h
    have h2 := workerProduceFrom_get ext 0 frames i (by simpa [workerProduce] using h)
    simpa [workerProduce] using h2
  · intro s q hq
    simp [receive_packets, hq]

theorem capture_ids_sequential_and_ordered_witness :
    drainAll [] [workerProduce extUnknown [Frame.mk (str "0.1") [7], Frame.mk (str "0.2") []]]
        = workerProduce extUnknown [Frame.mk (str "0.1") [7], Frame.mk (str "0.2") []] ∧
    (∀ i (h : i < (workerProduce extUnknown
          [Frame.mk (str "0.1") [7], Frame.mk (str "0.2") []]).length),
      ((workerProduce extUnknown
          [Frame.mk (str "0.1") [7], Frame.mk (str "0.2") []]).get ⟨i, h⟩).id = i + 1) ∧
    (∀ s q, s.packet_rx = some q → (receive_packets s).packets = s.packets ++ q) :=
  capture_ids_sequential_and_ordered extUnknown
    [Frame.mk (str "0.1") [7], Frame.mk (str "0.2") []]
    [workerProduce extUnknown [Frame.mk (str "0.1") [7], Frame.mk (str "0.2") []]]
    (by decide)

/-- C2 counterexample: the worker sends a record after start; before any tick
drains it the user presses 's' to stop. The record is still queued when
`stop()` runs (first conjunct); after the stop, `packets` is empty and the
channel receiver is gone, and the subsequent ticks append nothing — the
record sent before `stop()` completed is never appended, refuting the claim
that no record queued at stop time is lost. -/
theorem stop_loses_queued_record :
    (runEvents SnifferPage.new (evsC2.take 3)).map (fun s => s.packet_rx)
      = some (some [p1]) ∧
    (runEvents SnifferPage.new evsC2).map (fun s => (s.packets, s.packet_rx))
      = some ([], none) := by decide

/-- C2 amended: `stop_capture` keeps every already-drained record exactly
once (it never removes from or duplicates `packets`) but discards the
channel receiver together with every record still queued on it; each tick
drain appends each queued record exactly once, in order, and empties the
queue. -/
theorem stop_keeps_drained_discards_queued (s : SnifferPage) :
    (stop_capture s).packets = s.packets ∧
    (stop_capture s).packet_rx = none ∧
    ∀ q, s.packet_rx = some q →
      (receive_packets s).packets = s.packets ++ q ∧
      (receive_packets s).packet_rx = some [] := by
  refine ⟨?_, ?_, ?_⟩
  · unfold stop_capture
    by_cases hh : s.capture_thread_handle <;> cases hd : s.device_name <;> simp [hh, hd]
  · unfold stop_capture
    by_cases hh : s.capture_thread_handle <;> cases hd : s.device_name <;> simp [hh, hd]
  · intro q hq
    simp [receive_packets, hq]

theorem stop_keeps_drained_discards_queued_witness :
    (stop_capture sQueued).packets = sQueued.packets ∧
    (stop_capture sQueued).packet_rx = none ∧
    (receive_packets sQueued).packets = sQueued.packets ++ [p1] ∧
    (receive_packets sQueued).packet_rx = some [] :=
  ⟨(stop_keeps_drained_discards_queued sQueued).1,
   (stop_keeps_drained_discards_queued sQueued).2.1,
   ((stop_keeps_drained_discards_queued sQueued).2.2 [p1] rfl).1,
   ((stop_keeps_drained_discards_queued sQueued).2.2 [p1] rfl).2⟩

/-- C4: when the device opens but the non-empty filter text fails to compile,
`start_capture` still succeeds: capture runs (`is_capturing = true`, a worker
is spawned), `packets` is reset to empty, no filter is installed on the
handle, and the status surface carries the filter-rejection text. -/
theorem filter_rejection_non_fatal (env : CaptureEnv) (s : SnifferPage)
    (dn f : RustString)
    (hd : s.device_name = some dn) (hf : s.current_filter = some f) (hne : f ≠ [])
    (hl : env.listOk = true) (hdev : env.devices.contains dn = true)
    (ho : env.openOk = true) (hfo : env.filterOk = false) :
    (start_capture env s).toOption.map
        (fun t => (t.is_capturing, t.packets, t.worker_filter, t.capture_thread_handle,
                   t.status_message))
      = some (true, [], none, true,
          str "Filter error: " ++ env.filterErr ++ str ". Capturing without filter.") := by
  have hfe : f.isEmpty = false := by
    cases f with
    | nil => exact absurd rfl hne
    | cons a l => rfl
  have hmem : dn ∈ env.devices := by simpa using hdev
  simp [start_capture, hd, hl, hmem, ho, start_status, installed_filter, hf, hfe, hfo,
        Except.toOption]

theorem filter_rejection_non_fatal_witness :
    (start_capture envBadFilter sFiltered).toOption.map
        (fun t => (t.is_capturing, t.packets, t.worker_filter, t.capture_thread_handle,
                   t.status_message))
      = some (true, [], none, true,
          str "Filter error: " ++ envBadFilter.filterErr
            ++ str ". Capturing without filter.") :=
  filter_rejection_non_fatal envBadFilter sFiltered (str "eth0") (str "tcp port 99999")
    rfl rfl (by decide) rfl (by decide) rfl rfl

/-- C5: confirming a preset in the open dialog resolves to its catalog filter
text and, after the ApplyFilter round trip, `current_filter` is `none`
exactly when that text is empty and `some text` otherwise; the catalog maps
"Clear Filter" to the empty text and "HTTP Traffic" to
"tcp port 80 or tcp port 8080". -/
theorem preset_apply_sets_current_filter (env : CaptureEnv) (s : SnifferPage)
    (i : Nat) (nm text : String)
    (hopen : s.filter_dialog.is_open = true)
    (hmode : s.filter_dialog.mode = FilterMode.PresetSelection)
    (hsel : s.filter_dialog.selected_preset = i)
    (hp : get_filter_presets[i]? = some (nm, text)) :
    (step s (SysEvent.ev (Event.key env KeyCode.enter))).map (fun t => t.current_filter)
      = some (if (str text).isEmpty then none else some (str text)) ∧
    get_filter_presets[14]? = some ("Clear Filter", "") ∧
    get_filter_presets[2]? = some ("HTTP Traffic", "tcp port 80 or tcp port 8080") ∧
    (str "").isEmpty = true ∧
    (str "tcp port 80 or tcp port 8080").isEmpty = false := by
  refine ⟨?_, by decide, by decide, by decide, by decide⟩
  simp only [step, SnifferPage.handle_events, FilterDialog.handle_events,
             FilterDialog.handle_key_events, hopen, hmode, hsel, hp, if_true]
  simp [dispatchActions, SnifferPage.update]

theorem preset_apply_sets_current_filter_witness :
    (step (sPreset 2) (SysEvent.ev (Event.key envOk KeyCode.enter))).map
        (fun t => t.current_filter)
      = some (if (str "tcp port 80 or tcp port 8080").isEmpty then none
              else some (str "tcp port 80 or tcp port 8080")) ∧
    get_filter_presets[14]? = some ("Clear Filter", "") ∧
    get_filter_presets[2]? = some ("HTTP Traffic", "tcp port 80 or tcp port 8080") ∧
    (str "").isEmpty = true ∧
    (str "tcp port 80 or tcp port 8080").isEmpty = false :=
  preset_apply_sets_current_filter envOk (sPreset 2) 2 "HTTP Traffic"
    "tcp port 80 or tcp port 8080" rfl rfl rfl (by decide)

set_option maxRecDepth 4000 in
/-- C7: the detail page's key handler clamps with the magic constant 10 and
floor division, not with the rendered visible height and ceiling division:
on a 320-byte record (20 full hex rows) shown in an area of height 33
(`visible_lines = 30`, everything fits), End sets `hex_scroll` to 10, while
the bound the specification states is 0. -/
theorem hex_end_exceeds_spec_bound :
    (PacketDetailsPage.handle_key_events KeyCode.endKey
        (PacketDetailsPage.set_packet p320 { packet := none, hex_scroll := 0 })).1.hex_scroll
      = 10 ∧
    p320.data.length = 320 ∧
    specHexScrollBound p320.data.length (visible_lines 33) = 0 := by decide

/-- C10: the custom filter editor panics on multi-byte input: typing the
two-byte character 'é' advances the byte cursor by only 1, so the next
insertion calls `String::insert` inside the character's encoding, which
panics and aborts the process. -/
theorem multibyte_insert_panics :
    runCustomInput (FilterDialog.opener FilterDialog.new)
      [KeyCode.char 'é', KeyCode.char 'a'] = none := by decide

theorem update_effects (a : Action) (s : SnifferPage) :
    (SnifferPage.update a s).live_workers = s.live_workers ∧
    (SnifferPage.update a s).capture_thread_handle = s.capture_thread_handle ∧
    (SnifferPage.update a s).is_capturing = s.is_capturing ∧
    (SnifferPage.update a s).selected_packet = s.selected_packet ∧
    (SnifferPage.update a s).scroll_position = s.scroll_position ∧
    (SnifferPage.update a s).packets = s.packets ∧
    (SnifferPage.update a s).packet_rx = s.packet_rx := by
  cases a <;> simp [SnifferPage.update, SnifferPage.set_device] <;> (try split) <;> simp

theorem dispatch_effects (as : List Action) (s : SnifferPage) :
    (dispatchActions s as).live_workers = s.live_workers ∧
    (dispatchActions s as).capture_thread_handle = s.capture_thread_handle ∧
    (dispatchActions s as).is_capturing = s.is_capturing ∧
    (dispatchActions s as).selected_packet = s.selected_packet ∧
    (dispatchActions s as).scroll_position = s.scroll_position ∧
    (dispatchActions s as).packets = s.packets ∧
    (dispatchActions s as).packet_rx = s.packet_rx := by
  induction as generalizing s with
  | nil => simp [dispatchActions]
  | cons a as ih =>
    obtain ⟨h1, h2, h3, h4, h5, h6, h7⟩ := update_effects a s
    obtain ⟨g1, g2, g3, g4, g5, g6, g7⟩ := ih (SnifferPage.update a s)
    simp only [dispatchActions, List.foldl_cons] at g1 g2 g3 g4 g5 g6 g7 ⊢
    exact ⟨g1.trans h1, g2.trans h2, g3.trans h3, g4.trans h4, g5.trans h5,
           g6.trans h6, g7.trans h7⟩

theorem stop_capture_effects (s : SnifferPage) :
    (stop_capture s).is_capturing = false ∧
    (stop_capture s).capture_thread_handle = false ∧
    (stop_capture s).live_workers
      = s.live_workers - (if s.capture_thread_handle then 1 else 0) ∧
    (stop_capture s).packets = s.packets ∧
    (stop_capture s).selected_packet = s.selected_packet ∧
    (stop_capture s).scroll_position = s.scroll_position ∧
    (stop_capture s).packet_rx = none := by
  unfold stop_capture
  by_cases hh : s.capture_thread_handle <;> cases hd : s.device_name <;> simp [hh, hd]

theorem receive_packets_effects (s : SnifferPage) :
    (receive_packets s).live_workers = s.live_workers ∧
    (receive_packets s).capture_thread_handle = s.capture_thread_handle ∧
    (receive_packets s).is_capturing = s.is_capturing ∧
    (receive_packets s).selected_packet = s.selected_packet ∧
    (receive_packets s).scroll_position = s.scroll_position ∧
    s.packets.length ≤ (receive_packets s).packets.length := by
  unfold receive_packets
  cases s.packet_rx <;> simp

theorem worker_send_effects (ps : List PacketInfo) (s : SnifferPage) :
    (worker_send ps s).live_workers = s.live_workers ∧
    (worker_send ps s).capture_thread_handle = s.capture_thread_handle ∧
    (worker_send ps s).is_capturing = s.is_capturing ∧
    (worker_send ps s).selected_packet = s.selected_packet ∧
    (worker_send ps s).scroll_position = s.scroll_position ∧
    (worker_send ps s).packets = s.packets := by
  unfold worker_send
  cases s.packet_rx <;> simp <;> split <;> simp

theorem select_packet_effects (i : Nat) (s : SnifferPage) :
    (select_packet i s).live_workers = s.live_workers ∧
    (select_packet i s).capture_thread_handle = s.capture_thread_handle ∧
    (select_packet i s).is_capturing = s.is_capturing ∧
    (select_packet i s).packets = s.packets ∧
    (select_packet i s).packet_rx = s.packet_rx := by
  unfold select_packet
  split
  · split
    · simp
    · split <;> simp
  · simp

theorem handle_mouse_click_effects (x y : Nat) (a : Rect) (s : SnifferPage) :
    (handle_mouse_click x y a s).1.live_workers = s.live_workers ∧
    (handle_mouse_click x y a s).1.capture_thread_handle = s.capture_thread_handle ∧
    (handle_mouse_click x y a s).1.is_capturing = s.is_capturing ∧
    (handle_mouse_click x y a s).1.packets = s.packets ∧
    (handle_mouse_click x y a s).1.packet_rx = s.packet_rx ∧
    (handle_mouse_click x y a s).1.scroll_position = s.scroll_position ∧
    ((handle_mouse_click x y a s).1.selected_packet = s.selected_packet ∨
      ∃ j, (handle_mouse_click x y a s).1.selected_packet = some j
        ∧ j < s.packets.length) := by
  unfold handle_mouse_click
  split
  · split
    case isTrue hin =>
      split <;> simp
      right
      exact hin
    case isFalse => simp
  · simp

/-- WorkerInv holds of any state agreeing with an invariant state on the
three worker-related fields. -/
theorem worker_inv_fields (s t : SnifferPage) (hI : WorkerInv s)
    (h1 : t.live_workers = s.live_workers)
    (h2 : t.capture_thread_handle = s.capture_thread_handle)
    (h3 : t.is_capturing = s.is_capturing) : WorkerInv t := by
  obtain ⟨a1, a2⟩ := hI
  exact ⟨by rw [h1, h2, a1], by rw [h2, h3]; exact a2⟩

theorem worker_inv_stop (s : SnifferPage) (hI : WorkerInv s) :
    WorkerInv (stop_capture s) := by
  obtain ⟨a1, a2⟩ := hI
  obtain ⟨e1, e2, e3, _⟩ := stop_capture_effects s
  constructor
  · rw [e3, e2, a1]
    cases s.capture_thread_handle <;> simp
  · rw [e2]
    intro hx
    exact absurd hx (by simp)

theorem worker_inv_start (env : CaptureEnv) (s t : SnifferPage) (hI : WorkerInv s)
    (hcap : s.is_capturing = false) (h : start_capture env s = Except.ok t) :
    WorkerInv t := by
  obtain ⟨a1, a2⟩ := hI
  have hhf : s.capture_thread_handle = false := by
    cases hx : s.capture_thread_handle
    · rfl
    · exact absurd (a2 hx) (by rw [hcap]; simp)
  unfold start_capture at h
  split at h
  · simp only [Except.ok.injEq] at h
    subst h
    exact ⟨a1, a2⟩
  · split at h
    · simp at h
    · split at h
      · simp at h
      · split at h
        · simp at h
        · simp only [Except.ok.injEq] at h
          subst h
          refine ⟨?_, ?_⟩ <;> simp [a1, hhf]

/-- SelInv holds of any state whose selection agrees with an invariant state
and whose packet list is at least as long. -/
theorem sel_inv_fields (s t : SnifferPage) (hI : SelInv s)
    (h1 : t.selected_packet = s.selected_packet)
    (h2 : s.packets.length ≤ t.packets.length) : SelInv t := by
  intro i hi
  have := hI i (by rw [← h1]; exact hi)
  omega

theorem sel_inv_none (t : SnifferPage) (h : t.selected_packet = none) : SelInv t := by
  intro i hi
  rw [h] at hi
  cases hi

theorem sel_inv_select_packet (i : Nat) (s : SnifferPage) (hI : SelInv s) :
    SelInv (select_packet i s) := by
  unfold select_packet
  split
  case isTrue hi =>
    split
    · intro j hj
      simp at hj ⊢
      omega
    · split
      · intro j hj
        simp at hj ⊢
        omega
      · intro j hj
        simp at hj ⊢
        omega
  case isFalse => exact hI

theorem custom_input_ret (k : KeyCode) (d d1 : FilterDialog) (r : Option Action)
    (h : handle_custom_input k d = some (d1, r)) : r = some Action.Handled := by
  unfold handle_custom_input at h
  repeat' split at h
  all_goals simp_all

theorem preset_sel_ret (k : KeyCode) (d : FilterDialog) :
    (handle_preset_sel k d).2 = some Action.Handled := by
  unfold handle_preset_sel
  repeat' split
  all_goals rfl

theorem dialog_key_ret (k : KeyCode) (d d1 : FilterDialog) (em : List Action)
    (r : Option Action) (h : FilterDialog.handle_key_events k d = some (d1, em, r)) :
    r = some Action.Handled := by
  unfold FilterDialog.handle_key_events at h
  repeat' split at h
  all_goals
    try (simp only [Option.some.injEq, Prod.mk.injEq] at h; exact h.2.2.symm)
  all_goals
    first
    | (simp only [Option.some.injEq, Prod.mk.injEq] at h
       rw [← h.2.2]
       exact preset_sel_ret _ d)
    | (cases hc : handle_custom_input _ d with
       | none => rw [hc] at h; exact Option.noConfusion h
       | some val =>
         rw [hc] at h
         obtain ⟨dd, rr⟩ := val
         simp only [Option.map_some', Option.some.injEq, Prod.mk.injEq] at h
         rw [← h.2.2]
         exact custom_input_ret _ d dd rr hc)

theorem worker_inv_select (j : Nat) (s : SnifferPage) (hI : WorkerInv s) :
    WorkerInv (select_packet j s) := by
  obtain ⟨e1, e2, e3, _⟩ := select_packet_effects j s
  exact worker_inv_fields s _ hI e1 e2 e3

theorem worker_inv_receive (s : SnifferPage) (hI : WorkerInv s) :
    WorkerInv (receive_packets s) := by
  obtain ⟨e1, e2, e3, _⟩ := receive_packets_effects s
  exact worker_inv_fields s _ hI e1 e2 e3

theorem worker_inv_click (x y : Nat) (a : Rect) (s : SnifferPage) (hI : WorkerInv s) :
    WorkerInv (handle_mouse_click x y a s).1 := by
  obtain ⟨e1, e2, e3, _⟩ := handle_mouse_click_effects x y a s
  exact worker_inv_fields s _ hI e1 e2 e3

theorem sel_inv_stop (s : SnifferPage) (hI : SelInv s) : SelInv (stop_capture s) := by
  obtain ⟨_, _, _, e4, e5, _⟩ := stop_capture_effects s
  exact sel_inv_fields s _ hI e5 (by rw [e4])

theorem sel_inv_receive (s : SnifferPage) (hI : SelInv s) :
    SelInv (receive_packets s) := by
  obtain ⟨_, _, _, e4, _, e6⟩ := receive_packets_effects s
  exact sel_inv_fields s _ hI e4 e6

theorem sel_inv_click (x y : Nat) (a : Rect) (s : SnifferPage) (hI : SelInv s) :
    SelInv (handle_mouse_click x y a s).1 := by
  obtain ⟨_, _, _, e4, _, _, e7⟩ := handle_mouse_click_effects x y a s
  cases e7 with
  | inl he => exact sel_inv_fields s _ hI he (by rw [e4])
  | inr he =>
    obtain ⟨j, hj1, hj2⟩ := he
    intro i hi
    have hji : some j = some i := hj1.symm.trans hi
    injection hji with hji
    subst hji
    rw [e4]
    exact hj2

theorem handle_key_worker_inv (env : CaptureEnv) (k : KeyCode) (s s1 : SnifferPage)
    (r : Option Action) (hI : WorkerInv s)
    (h : SnifferPage.handle_key_events env k s = some (s1, r)) : WorkerInv s1 := by
  unfold SnifferPage.handle_key_events at h
  repeat' split at h
  all_goals try exact Option.noConfusion h
  all_goals simp only [Option.some.injEq, Prod.mk.injEq] at h
  all_goals obtain ⟨h1, h2⟩ := h
  all_goals subst h1
  all_goals
    first
    | exact hI
    | exact worker_inv_stop s hI
    | exact worker_inv_select _ s hI
    | exact worker_inv_fields s _ hI rfl rfl rfl
    | exact worker_inv_fields (stop_capture s) _ (worker_inv_stop s hI) rfl rfl rfl
    | exact worker_inv_start env s _ hI (by simp_all) (by assumption)

theorem handle_key_sel_inv (env : CaptureEnv) (k : KeyCode) (s s1 : SnifferPage)
    (r : Option Action) (hI : SelInv s)
    (hns : ¬(k = KeyCode.char 's' ∧ s.device_name.isSome = true
              ∧ s.is_capturing = false))
    (h : SnifferPage.handle_key_events env k s = some (s1, r)) : SelInv s1 := by
  unfold SnifferPage.handle_key_events at h
  repeat' split at h
  all_goals try exact Option.noConfusion h
  all_goals simp only [Option.some.injEq, Prod.mk.injEq] at h
  all_goals obtain ⟨h1, h2⟩ := h
  all_goals subst h1
  all_goals
    first
    | exact hI
    | exact sel_inv_stop s hI
    | exact sel_inv_select_packet _ s hI
    | exact sel_inv_none _ rfl
    | exact sel_inv_fields s _ hI rfl (Nat.le_refl _)
    | exact sel_inv_fields (stop_capture s) _ (sel_inv_stop s hI) rfl (Nat.le_refl _)
    | simp_all

theorem handle_events_core_worker_inv (ev : Event) (s t : SnifferPage)
    (em : List Action) (ret : Option Action) (hI : WorkerInv s)
    (h : SnifferPage.handle_events_core ev s = some (t, em, ret)) : WorkerInv t := by
  cases ev with
  | tick =>
    simp only [SnifferPage.handle_events_core] at h
    split at h <;>
      (simp only [Option.some.injEq, Prod.mk.injEq] at h;
       obtain ⟨h1, _⟩ := h; subst h1)
    · exact worker_inv_receive s hI
    · exact hI
  | key env k =>
    simp only [SnifferPage.handle_events_core] at h
    cases hk : SnifferPage.handle_key_events env k s with
    | none => rw [hk] at h; exact Option.noConfusion h
    | some val =>
      obtain ⟨s2, r⟩ := val
      rw [hk] at h
      simp only [Option.some.injEq, Prod.mk.injEq] at h
      obtain ⟨h1, _⟩ := h
      subst h1
      exact handle_key_worker_inv env k s s2 r hI hk
  | mouse m =>
    cases m <;> simp only [SnifferPage.handle_events_core] at h
    all_goals try split at h
    all_goals
      (simp only [Option.some.injEq, Prod.mk.injEq] at h;
       obtain ⟨h1, _⟩ := h; subst h1)
    all_goals
      first
      | exact hI
      | exact worker_inv_click _ _ _ s hI
      | exact worker_inv_fields s _ hI rfl rfl rfl

theorem handle_events_core_sel_inv (ev : Event) (s t : SnifferPage)
    (em : List Action) (ret : Option Action) (hI : SelInv s)
    (hns : ∀ env c, ev = Event.key env (KeyCode.char c) → c = 's' →
      s.device_name.isSome = true → s.is_capturing = false → False)
    (h : SnifferPage.handle_events_core ev s = some (t, em, ret)) : SelInv t := by
  cases ev with
  | tick =>
    simp only [SnifferPage.handle_events_core] at h
    split at h <;>
      (simp only [Option.some.injEq, Prod.mk.injEq] at h;
       obtain ⟨h1, _⟩ := h; subst h1)
    · exact sel_inv_receive s hI
    · exact hI
  | key env k =>
    simp only [SnifferPage.handle_events_core] at h
    cases hk : SnifferPage.handle_key_events env k s with
    | none => rw [hk] at h; exact Option.noConfusion h
    | some val =>
      obtain ⟨s2, r⟩ := val
      rw [hk] at h
      simp only [Option.some.injEq, Prod.mk.injEq] at h
      obtain ⟨h1, _⟩ := h
      subst h1
      refine handle_key_sel_inv env k s s2 r hI ?_ hk
      rintro ⟨hk1, hk2, hk3⟩
      exact hns env 's' (by rw [hk1]) rfl hk2 hk3
  | mouse m =>
    cases m <;> simp only [SnifferPage.handle_events_core] at h
    all_goals try split at h
    all_goals
      (simp only [Option.some.injEq, Prod.mk.injEq] at h;
       obtain ⟨h1, _⟩ := h; subst h1)
    all_goals
      first
      | exact hI
      | exact sel_inv_click _ _ _ s hI
      | exact sel_inv_fields s _ hI rfl (Nat.le_refl _)

theorem handle_events_worker_inv (ev : Event) (s t : SnifferPage) (em : List Action)
    (ret : Option Action) (hI : WorkerInv s)
    (h : SnifferPage.handle_events ev s = some (t, em, ret)) : WorkerInv t := by
  unfold SnifferPage.handle_events at h
  by_cases ho : s.filter_dialog.is_open
  · rw [if_pos ho] at h
    split at h
    · exact Option.noConfusion h
    · simp only [Option.some.injEq, Prod.mk.injEq] at h
      obtain ⟨h1, _⟩ := h
      subst h1
      exact worker_inv_fields s _ hI rfl rfl rfl
    · rename_i d1 em1 heq
      exact handle_events_core_worker_inv ev { s with filter_dialog := d1 } t em ret
        (worker_inv_fields s { s with filter_dialog := d1 } hI rfl rfl rfl) h
  · rw [if_neg ho] at h
    exact handle_events_core_worker_inv ev s t em ret hI h

theorem handle_events_sel_inv (ev : Event) (s t : SnifferPage) (em : List Action)
    (ret : Option Action) (hI : SelInv s)
    (hns : ∀ env c, ev = Event.key env (KeyCode.char c) → c = 's' →
      s.filter_dialog.is_open = false →
      s.device_name.isSome = true → s.is_capturing = false → False)
    (h : SnifferPage.handle_events ev s = some (t, em, ret)) : SelInv t := by
  unfold SnifferPage.handle_events at h
  by_cases ho : s.filter_dialog.is_open
  · rw [if_pos ho] at h
    split at h
    · exact Option.noConfusion h
    · simp only [Option.some.injEq, Prod.mk.injEq] at h
      obtain ⟨h1, _⟩ := h
      subst h1
      exact sel_inv_fields s _ hI rfl (Nat.le_refl _)
    · rename_i d1 em1 heq
      refine handle_events_core_sel_inv ev { s with filter_dialog := d1 } t em ret
        (sel_inv_fields s { s with filter_dialog := d1 } hI rfl (Nat.le_refl _)) ?_ h
      intro env c hev hc hd hcap
      subst hev
      simp only [FilterDialog.handle_events] at heq
      have hr := dialog_key_ret _ _ _ _ _ heq
      simp at hr
  · rw [if_neg ho] at h
    refine handle_events_core_sel_inv ev s t em ret hI ?_ h
    intro env c hev hc hd hcap
    exact hns env c hev hc (by simpa using ho) hd hcap

theorem step_worker_inv (s s1 : SnifferPage) (e : SysEvent) (hI : WorkerInv s)
    (h : step s e = some s1) : WorkerInv s1 := by
  cases e with
  | arrive ps =>
    simp only [step, Option.some.injEq] at h
    subst h
    obtain ⟨e1, e2, e3, _⟩ := worker_send_effects ps s
    exact worker_inv_fields s _ hI e1 e2 e3
  | act a =>
    simp only [step, Option.some.injEq] at h
    subst h
    obtain ⟨e1, e2, e3, _⟩ := update_effects a s
    exact worker_inv_fields s _ hI e1 e2 e3
  | ev ev =>
    simp only [step] at h
    cases hh : SnifferPage.handle_events ev s with
    | none => rw [hh] at h; cases h
    | some res =>
      obtain ⟨t, em, ret⟩ := res
      rw [hh] at h
      simp only [Option.some.injEq] at h
      subst h
      have hdis := dispatch_effects (em ++ ret.toList) t
      exact worker_inv_fields t _ (handle_events_worker_inv ev s t em ret hI hh)
        hdis.1 hdis.2.1 hdis.2.2.1

theorem step_sel_inv (s s1 : SnifferPage) (e : SysEvent) (hI : SelInv s)
    (hns : startsCapture e s = false) (h : step s e = some s1) : SelInv s1 := by
  cases e with
  | arrive ps =>
    simp only [step, Option.some.injEq] at h
    subst h
    obtain ⟨_, _, _, e4, _, e6⟩ := worker_send_effects ps s
    exact sel_inv_fields s _ hI e4 (by rw [e6])
  | act a =>
    simp only [step, Option.some.injEq] at h
    subst h
    obtain ⟨_, _, _, e4, _, e6, _⟩ := update_effects a s
    exact sel_inv_fields s _ hI e4 (by rw [e6])
  | ev ev =>
    simp only [step] at h
    cases hh : SnifferPage.handle_events ev s with
    | none => rw [hh] at h; cases h
    | some res =>
      obtain ⟨t, em, ret⟩ := res
      rw [hh] at h
      simp only [Option.some.injEq] at h
      subst h
      have hdis := dispatch_effects (em ++ ret.toList) t
      refine sel_inv_fields t _ ?_ hdis.2.2.2.1 (by rw [hdis.2.2.2.2.2.1])
      refine handle_events_sel_inv ev s t em ret hI ?_ hh
      intro env c hev hc hop hd hcap
      subst hev
      rw [startsCapture] at hns
      simp only [hc, hop, hd, hcap] at hns
      simp at hns

theorem run_worker_inv (evs : List SysEvent) (s s1 : SnifferPage) (hI : WorkerInv s)
    (h : runEvents s evs = some s1) : WorkerInv s1 := by
  induction evs generalizing s with
  | nil =>
    simp only [runEvents, Option.some.injEq] at h
    subst h
    exact hI
  | cons e es ih =>
    simp only [runEvents] at h
    cases hs : step s e with
    | none => rw [hs] at h; cases h
    | some s2 =>
      rw [hs] at h
      exact ih s2 (step_worker_inv s s2 e hI hs) h

theorem select_packet_zero (s : SnifferPage) (hlen : 0 < s.packets.length) :
    (select_packet 0 s).selected_packet = some 0 ∧
    (select_packet 0 s).scroll_position = 0 := by
  unfold select_packet
  rw [if_pos hlen]
  by_cases hsc : 0 < s.scroll_position
  · rw [if_pos hsc]
    exact ⟨rfl, rfl⟩
  · rw [if_neg hsc, if_neg (by omega)]
    exact ⟨rfl, by simp; omega⟩

/-- C3: starting from a fresh session page, after any sequence of system
events that does not abort the process, at most one worker thread is alive
(spawned and unjoined); moreover pressing 's' while a device is set and
capture is running performs `stop_capture` — it never reaches
`start_capture`, so no second worker is ever spawned. -/
theorem single_worker_per_session (evs : List SysEvent) (s : SnifferPage)
    (h : runEvents SnifferPage.new evs = some s) :
    s.live_workers ≤ 1 ∧
    (∀ env t, t.is_capturing = true → t.device_name.isSome = true →
      SnifferPage.handle_key_events env (KeyCode.char 's') t
        = some (stop_capture t, none)) := by
  constructor
  · have hI0 : WorkerInv SnifferPage.new := by
      constructor
      · rfl
      · intro hx
        exact absurd hx (by simp [SnifferPage.new])
    obtain ⟨a1, _⟩ := run_worker_inv evs SnifferPage.new s hI0 h
    rw [a1]
    split <;> omega
  · intro env t hcap hdev
    cases hdn : t.device_name with
    | none => rw [hdn] at hdev; simp at hdev
    | some dn => simp [SnifferPage.handle_key_events, hdn, hcap]

theorem single_worker_per_session_witness :
    SnifferPage.new.live_workers ≤ 1 ∧
    (∀ env t, t.is_capturing = true → t.device_name.isSome = true →
      SnifferPage.handle_key_events env (KeyCode.char 's') t
        = some (stop_capture t, none)) :=
  single_worker_per_session [] SnifferPage.new rfl

/-- C6 counterexample: select a device, start, receive one record, select it
with Down, stop, then press 's' to start again. `start_capture` clears
`packets` but leaves `selected_packet` untouched, so the final state has
`selected_packet = some 0` with an empty packet list — the claimed invariant
fails right after the start operation. -/
theorem stale_selection_after_restart :
    (runEvents SnifferPage.new evsC6).map
        (fun s => (s.selected_packet, s.packets.length))
      = some (some 0, 0) := by decide

/-- C6 amended: every session-page operation except a successful start
preserves the selection-bounds invariant (selection is `None` or a valid
index); a successful `start_capture` resets `packets` to empty while leaving
the selection unchanged, which is exactly how the invariant can break. -/
theorem selection_in_bounds_except_start (s : SnifferPage) (e : SysEvent)
    (s1 : SnifferPage) (hI : SelInv s) (hns : startsCapture e s = false)
    (h : step s e = some s1) :
    SelInv s1 ∧
    (∀ env t t1, start_capture env t = Except.ok t1 →
      t1.selected_packet = t.selected_packet) := by
  refine ⟨step_sel_inv s s1 e hI hns h, ?_⟩
  intro env t t1 hst
  unfold start_capture at hst
  split at hst
  · simp only [Except.ok.injEq] at hst
    subst hst
    rfl
  · split at hst
    · exact Except.noConfusion hst
    · split at hst
      · exact Except.noConfusion hst
      · split at hst
        · exact Except.noConfusion hst
        · simp only [Except.ok.injEq] at hst
          subst hst
          rfl

theorem selection_in_bounds_except_start_witness :
    SelInv SnifferPage.new ∧
    (∀ env t t1, start_capture env t = Except.ok t1 →
      t1.selected_packet = t.selected_packet) :=
  selection_in_bounds_except_start SnifferPage.new (SysEvent.ev Event.tick)
    SnifferPage.new (fun i hi => Option.noConfusion hi) (by decide) (by decide)

/-- C8 counterexample: with 21 captured records the user opens the filter
dialog with 'a' (scroll offset 0); a mouse wheel-down event arriving while
the dialog is open still reaches the packet list and moves `scroll_position`
to 3 — mouse input is not excluded by the open dialog. -/
theorem dialog_open_mouse_still_scrolls :
    (runEvents SnifferPage.new (evsC8.take 5)).map
        (fun s => (s.filter_dialog.is_open, s.scroll_position))
      = some (true, 0) ∧
    (runEvents SnifferPage.new evsC8).map
        (fun s => (s.filter_dialog.is_open, s.scroll_position))
      = some (true, 3) := by decide

/-- C8 amended: while the filter dialog is open it has exclusive focus for
key events only: any key event leaves the packet-list state (selection,
scroll offset, packet list) unchanged; mouse events, by contrast, bypass the
dialog (its handler returns `None` for them) and can still scroll or
click-select the list. -/
theorem dialog_excl_key_events (env : CaptureEnv) (k : KeyCode) (s s1 : SnifferPage)
    (ho : s.filter_dialog.is_open = true)
    (h : step s (SysEvent.ev (Event.key env k)) = some s1) :
    s1.selected_packet = s.selected_packet ∧
    s1.scroll_position = s.scroll_position ∧
    s1.packets = s.packets := by
  simp only [step] at h
  cases hh : SnifferPage.handle_events (Event.key env k) s with
  | none => rw [hh] at h; exact Option.noConfusion h
  | some res =>
    obtain ⟨t, em, ret⟩ := res
    rw [hh] at h
    simp only [Option.some.injEq] at h
    subst h
    have hdis := dispatch_effects (em ++ ret.toList) t
    unfold SnifferPage.handle_events at hh
    rw [if_pos ho] at hh
    split at hh
    · exact Option.noConfusion hh
    · simp only [Option.some.injEq, Prod.mk.injEq] at hh
      obtain ⟨h1, _⟩ := hh
      subst h1
      exact ⟨hdis.2.2.2.1, hdis.2.2.2.2.1, hdis.2.2.2.2.2.1⟩
    · rename_i d1 em1 heq
      simp only [FilterDialog.handle_events] at heq
      have hr := dialog_key_ret _ _ _ _ _ heq
      exact absurd hr (by simp)

theorem dialog_excl_key_events_witness :
    sPresetTabbed.selected_packet = (sPreset 2).selected_packet ∧
    sPresetTabbed.scroll_position = (sPreset 2).scroll_position ∧
    sPresetTabbed.packets = (sPreset 2).packets :=
  dialog_excl_key_events envOk KeyCode.tab (sPreset 2) sPresetTabbed rfl (by decide)

/-- C9 counterexample: with one captured record and no selection (fourth
conjunct of the prefix run), pressing Up selects index 0 — the selection does
not remain `None` and `scroll_offset` is not moved, refuting the claim that
Up/Down move the scroll offset instead of the selection when the non-empty
list has no selection. -/
theorem up_with_no_selection_selects :
    (runEvents SnifferPage.new (evsC9.take 4)).map
        (fun s => (s.selected_packet, s.packets.length, s.scroll_position))
      = some (none, 1, 0) ∧
    (runEvents SnifferPage.new evsC9).map
        (fun s => (s.selected_packet, s.scroll_position))
      = some (some 0, 0) := by decide

/-- C9 amended: when the list is non-empty and nothing is selected (dialog
closed), Up and Down both select index 0 (`selected_packet = some 0`);
`scroll_position` is only adjusted by the keep-visible logic of
`select_packet`, which brings it to 0; the scroll offset moves directly
instead of the selection only when the list is empty. -/
theorem up_down_no_selection_select_zero (env : CaptureEnv) (s : SnifferPage)
    (hsel : s.selected_packet = none) (hne : s.packets ≠ [])
    (ho : s.filter_dialog.is_open = false) :
    (step s (SysEvent.ev (Event.key env KeyCode.up))).map
        (fun t => (t.selected_packet, t.scroll_position)) = some (some 0, 0) ∧
    (step s (SysEvent.ev (Event.key env KeyCode.down))).map
        (fun t => (t.selected_packet, t.scroll_position)) = some (some 0, 0) := by
  have hne2 : s.packets.isEmpty = false := by
    cases hp : s.packets
    · exact absurd hp hne
    · rfl
  have hlen : 0 < s.packets.length := by
    cases hp : s.packets
    · exact absurd hp hne
    · simp [hp]
  obtain ⟨hz1, hz2⟩ := select_packet_zero s hlen
  constructor <;>
    simp [step, SnifferPage.handle_events, ho, SnifferPage.handle_events_core,
          SnifferPage.handle_key_events, hne2, hsel, dispatchActions, hz1, hz2]

theorem up_down_no_selection_select_zero_witness :
    (step sOnePacket (SysEvent.ev (Event.key envOk KeyCode.up))).map
        (fun t => (t.selected_packet, t.scroll_position)) = some (some 0, 0) ∧
    (step sOnePacket (SysEvent.ev (Event.key envOk KeyCode.down))).map
        (fun t => (t.selected_packet, t.scroll_position)) = some (some 0, 0) :=
  up_down_no_selection_select_zero envOk sOnePacket rfl (by decide) rfl

end Sniffer
